import Mathlib

/-!
Shallow embedding of the go-pocket-sdk client (`pocket.go`) together with the
Go standard-library behaviour it relies on (`net/url.ParseQuery` and the
struct-tag handling of `encoding/json`).  Network I/O is made explicit: each
operation receives the outcome of the single HTTP round trip it may perform
and additionally returns the list of requests it actually dispatched, so that
"no network call is made" is expressible as an empty dispatch list.
-/

namespace Pocket

/-! ### Go standard library: percent-decoding (`net/url.QueryUnescape`) -/

/-- The `ishex` predicate of `net/url`. -/
def ishex (c : Char) : Bool :=
  ('0' ≤ c && c ≤ '9') || ('a' ≤ c && c ≤ 'f') || ('A' ≤ c && c ≤ 'F')

/-- The `unhex` conversion of `net/url` (only meaningful on hex digits). -/
def unhex (c : Char) : Nat :=
  if '0' ≤ c && c ≤ '9' then c.toNat - '0'.toNat
  else if 'a' ≤ c && c ≤ 'f' then c.toNat - 'a'.toNat + 10
  else c.toNat - 'A'.toNat + 10

/-- `net/url.unescape` in `encodeQueryComponent` mode, on character lists:
a percent sign must be followed by two hex digits (else the error carries the
offending remainder of at most three characters), and a plus decodes to a
space.  The error payload is the `EscapeError` content. -/
def unescapeList : List Char → Except String (List Char)
  | [] => Except.ok []
  | '%' :: a :: b :: t =>
    if ishex a && ishex b then
      match unescapeList t with
      | Except.error e => Except.error e
      | Except.ok r => Except.ok (Char.ofNat (unhex a * 16 + unhex b) :: r)
    else Except.error (String.mk ['%', a, b])
  | '%' :: rest => Except.error (String.mk ('%' :: rest))
  | '+' :: t =>
    match unescapeList t with
    | Except.error e => Except.error e
    | Except.ok r => Except.ok (' ' :: r)
  | c :: t =>
    match unescapeList t with
    | Except.error e => Except.error e
    | Except.ok r => Except.ok (c :: r)

/-- `net/url.QueryUnescape`. -/
def queryUnescape (s : String) : Except String String :=
  match unescapeList s.data with
  | Except.error e => Except.error e
  | Except.ok r => Except.ok (String.mk r)

/-! ### Go standard library: `net/url.ParseQuery`

`ParseQuery` repeatedly cuts the query at the next ampersand, which yields
exactly the segments of splitting on the ampersand character (an empty query
never enters the loop in Go; the single empty segment produced below is
skipped by the empty-key test, so the results agree).  Values are an ordered
multimap; `Values.Get` returns the value of the first occurrence of the key,
or the empty string. -/

/-- Split a character list on a separator, keeping empty segments
(the segments `strings.Cut` walks through). -/
def splitSegs (sep : Char) : List Char → List (List Char)
  | [] => [[]]
  | c :: t =>
    if c = sep then [] :: splitSegs sep t
    else
      match splitSegs sep t with
      | [] => [[c]]
      | s :: ss => (c :: s) :: ss

/-- `strings.Cut` at the first occurrence of a character: the part before it
and the part after it (empty when the separator is absent). -/
def cutList (sep : Char) : List Char → List Char × List Char
  | [] => ([], [])
  | c :: t =>
    if c = sep then ([], t)
    else
      match cutList sep t with
      | (b, a) => (c :: b, a)

/-- One iteration of the `parseQuery` loop of `net/url`: a segment holding a
semicolon overwrites the error; an empty segment is skipped; otherwise the
segment is cut at the first equals sign, both halves are percent-decoded
(the first decode error is kept), and the pair is appended. -/
def applySegment (acc : List (String × String) × Option String) (seg : List Char) :
    List (String × String) × Option String :=
  let (m, err) := acc
  if seg.contains ';' then (m, some "invalid semicolon separator in query")
  else if seg = [] then (m, err)
  else
    let (k, v) := cutList '=' seg
    match unescapeList k with
    | Except.error e =>
      match err with
      | some _ => (m, err)
      | none => (m, some ("invalid URL escape " ++ e))
    | Except.ok k2 =>
      match unescapeList v with
      | Except.error e =>
        match err with
        | some _ => (m, err)
        | none => (m, some ("invalid URL escape " ++ e))
      | Except.ok v2 => (m ++ [(String.mk k2, String.mk v2)], err)

/-- `net/url.ParseQuery`: the (possibly partial) parsed values together with
the recorded error, if any. -/
def parseQuery (s : String) : List (String × String) × Option String :=
  (splitSegs '&' s.data).foldl applySegment ([], none)

/-- `url.Values.Get`: the first value recorded for the key, or the empty
string when the key is absent. -/
def valuesGet (m : List (String × String)) (key : String) : String :=
  match m.find? (fun p => p.1 = key) with
  | some p => p.2
  | none => ""

/-! ### Go standard library: `encoding/json` marshaling of string structs

`json.Marshal` writes the exported string fields in declaration order.  A
struct tag is cut at its first comma into the emitted name and the raw option
remainder; the remainder is again comma-split and an option applies only on
an exact match, so a stray space (as in the source's tag on the title field)
defeats the omit-if-empty behaviour while the emitted key is unchanged. -/

/-- JSON escaping of one character as Go's encoder performs it (with its
default HTML escaping of angle brackets and ampersands). -/
def jsonEscapeChar (c : Char) : String :=
  if c = '"' then "\\\""
  else if c = '\\' then "\\\\"
  else if c = '\n' then "\\n"
  else if c = '\r' then "\\r"
  else if c = '\t' then "\\t"
  else if c = '<' then "\\u003c"
  else if c = '>' then "\\u003e"
  else if c = '&' then "\\u0026"
  else String.mk [c]

/-- A JSON string literal for a Go string (control characters other than the
three named ones do not occur in the inputs considered here). -/
def jsonQuote (s : String) : String :=
  "\"" ++ String.join (s.data.map jsonEscapeChar) ++ "\""

/-- `encoding/json.parseTag`: the emitted field name (before the first
comma) and the option pieces (the comma-separated remainder). -/
def parseTag (tag : String) : String × List String :=
  match (splitSegs ',' tag.data).map String.mk with
  | [] => ("", [])
  | name :: opts => (name, opts)

/-- Encoding of one string field under its struct tag: skipped only when the
options contain exactly the omit-if-empty option and the value is empty. -/
def encodeStringField (tag : String) (value : String) : Option (String × String) :=
  let (name, opts) := parseTag tag
  if opts.contains "omitempty" && value == "" then none
  else some (name, jsonQuote value)

/-- Render a JSON object from emitted key/encoded-value pairs. -/
def renderJSONObject (fields : List (String × String)) : String :=
  "\x7b" ++ String.intercalate "," (fields.map (fun p => jsonQuote p.1 ++ ":" ++ p.2)) ++ "\x7d"

/-! ### Data model of `pocket.go` -/

/-- The `requestTokenRequest` payload. -/
structure requestTokenRequest where
  ConsumerKey : String
  RedirectUrl : String
deriving DecidableEq

/-- The `authorizeRequest` payload. -/
structure authorizeRequest where
  ConsumerKey : String
  Code : String
deriving DecidableEq

/-- The `AuthorizeResponse` returned to the caller. -/
structure AuthorizeResponse where
  Access_token : String
  Username : String
deriving DecidableEq

/-- The `addRequest` payload sent to the add endpoint. -/
structure addRequest where
  URL : String
  Title : String
  Tags : String
  AccessToken : String
  ConsumerKey : String
deriving DecidableEq

/-- The caller-supplied `AddInput`. -/
structure AddInput where
  URL : String
  Title : String
  Tags : List String
  AccessToken : String
deriving DecidableEq

/-- `json.Marshal` of a `requestTokenRequest`, struct tags as in the source. -/
def requestTokenRequestJSON (r : requestTokenRequest) : String :=
  renderJSONObject (List.filterMap id
    [encodeStringField "consumer_key" r.ConsumerKey,
     encodeStringField "redirect_uri" r.RedirectUrl])

/-- `json.Marshal` of an `authorizeRequest`, struct tags as in the source. -/
def authorizeRequestJSON (r : authorizeRequest) : String :=
  renderJSONObject (List.filterMap id
    [encodeStringField "consumer_key" r.ConsumerKey,
     encodeStringField "code" r.Code])

/-- The emitted key/encoded-value pairs of `json.Marshal` on an `addRequest`,
with the struct tags exactly as written in the source, stray spaces
included. -/
def addRequestFields (r : addRequest) : List (String × String) :=
  List.filterMap id
    [encodeStringField "url" r.URL,
     encodeStringField "title, omitempty" r.Title,
     encodeStringField "tags, omitempty" r.Tags,
     encodeStringField "access_token" r.AccessToken,
     encodeStringField "consumer_key" r.ConsumerKey]

/-- `json.Marshal` of an `addRequest`. -/
def addRequestJSON (r : addRequest) : String :=
  renderJSONObject (addRequestFields r)

/-- `AddInput.validate` from the source. -/
def validate (i : AddInput) : Option String :=
  if i.URL == "" then some "required URL is empty"
  else if i.AccessToken == "" then some "access token is empty"
  else none

/-- `AddInput.generateRequest` from the source: tags are joined with a
comma. -/
def generateRequest (i : AddInput) (consumerKey : String) : addRequest :=
  { URL := i.URL
    Tags := String.intercalate "," i.Tags
    Title := i.Title
    AccessToken := i.AccessToken
    ConsumerKey := consumerKey }

/-! ### The client and its HTTP dispatch -/

/-- The constants of the source file. -/
def host : String := "https://getpocket.com/v3"

/-- The add endpoint path. -/
def endpointAdd : String := "/add"

/-- The request-token endpoint path. -/
def endpointRequestToken : String := "/oauth/request"

/-- The authorize endpoint path. -/
def endpointAuthorize : String := "/oauth/authorize"

/-- The client: the consumer key it was constructed with (the HTTP transport
is made explicit per call as a `DoResult`). -/
structure Client where
  consumerKey : String
deriving DecidableEq

/-- An HTTP response as the dispatch helper observes it: status code, the
content of the error header, and the fully received body. -/
structure Response where
  statusCode : Nat
  xErrorHeader : String
  body : String
deriving DecidableEq

/-- The outcome of `client.Do`: either a transport failure or a response. -/
inductive DoResult where
  | failure (msg : String)
  | success (resp : Response)
deriving DecidableEq

/-- One dispatched HTTP request: target URL and marshaled JSON body. -/
structure SentRequest where
  url : String
  body : String
deriving DecidableEq

/-- `Client.doHTTP` from the source, on an already-marshaled body (marshaling
of the string-only payloads and request construction never fail).  Returns
the parsed form values or an error, together with the single request it
dispatched: a non-OK status yields the error built from the error header; an
OK status yields the parsed body, or the parse error recorded by
`parseQuery`. -/
def doHTTP (net : DoResult) (endpoint : String) (bodyJson : String) :
    Except String (List (String × String)) × List SentRequest :=
  let sent := [⟨host ++ endpoint, bodyJson⟩]
  match net with
  | DoResult.failure msg => (Except.error ("failed to send message request: " ++ msg), sent)
  | DoResult.success resp =>
    if resp.statusCode ≠ 200 then
      (Except.error ("API Error: " ++ resp.xErrorHeader), sent)
    else
      match parseQuery resp.body with
      | (_, some e) => (Except.error ("failed to parse response body: " ++ e), sent)
      | (vals, none) => (Except.ok vals, sent)

/-- `Client.GetRequestToken` from the source: no local validation of the
redirect URL; dispatch, then require a non-empty `code` value. -/
def GetRequestToken (c : Client) (net : DoResult) (redirectUrl : String) :
    Except String String × List SentRequest :=
  let inp : requestTokenRequest := ⟨c.consumerKey, redirectUrl⟩
  match doHTTP net endpointRequestToken (requestTokenRequestJSON inp) with
  | (Except.error e, log) => (Except.error e, log)
  | (Except.ok values, log) =>
    if valuesGet values "code" == "" then
      (Except.error "empty request token in API response", log)
    else
      (Except.ok (valuesGet values "code"), log)

/-- `Client.GetAuthorizationURL` from the source: pure, no dispatch; a single
error message covers both empty arguments. -/
def GetAuthorizationURL (requestToken redirectUrl : String) : Except String String :=
  if requestToken == "" || redirectUrl == "" then
    Except.error "empty request token"
  else
    Except.ok ("https://getpocket.com/auth/authorize?request_token=" ++ requestToken
      ++ "&redirect_uri=" ++ redirectUrl)

/-- `Client.Authorize` from the source: reject an empty request token before
any dispatch; otherwise dispatch and require a non-empty access token. -/
def Authorize (c : Client) (net : DoResult) (requestToken : String) :
    Except String AuthorizeResponse × List SentRequest :=
  if requestToken == "" then (Except.error "empty request token", [])
  else
    let inp : authorizeRequest := ⟨c.consumerKey, requestToken⟩
    match doHTTP net endpointAuthorize (authorizeRequestJSON inp) with
    | (Except.error e, log) => (Except.error e, log)
    | (Except.ok values, log) =>
      let accessToken := valuesGet values "access_token"
      let username := valuesGet values "username"
      if accessToken == "" then (Except.error "empty access token in API response", log)
      else (Except.ok ⟨accessToken, username⟩, log)

/-- `Client.Add` from the source: validate, then dispatch and ignore the
parsed values, returning only the dispatch error, if any. -/
def Add (c : Client) (net : DoResult) (input : AddInput) :
    Except String Unit × List SentRequest :=
  match validate input with
  | some e => (Except.error e, [])
  | none =>
    let req := generateRequest input c.consumerKey
    match doHTTP net endpointAdd (addRequestJSON req) with
    | (Except.error e, log) => (Except.error e, log)
    | (Except.ok _, log) => (Except.ok (), log)

/-- Whether an `Except` result is an error. -/
def exceptIsError {α : Type} : Except String α → Bool
  | Except.error _ => true
  | Except.ok _ => false

/-- The values carried by a successful dispatch, empty on error. -/
def dispatchValues : Except String (List (String × String)) → List (String × String)
  | Except.ok v => v
  | Except.error _ => []

end Pocket

namespace Pocket

/-! ### Helper lemmas -/

/-- The dispatch helper always sends exactly one request, to the host plus
the endpoint, with the marshaled body. -/
theorem doHTTP_sends (net : DoResult) (endpoint bodyJson : String) :
    (doHTTP net endpoint bodyJson).2 = [⟨host ++ endpoint, bodyJson⟩] := by
  cases net with
  | failure msg => rfl
  | success resp =>
    unfold doHTTP
    by_cases hs : resp.statusCode = 200
    · rcases h : parseQuery resp.body with ⟨vals, err⟩
      cases err <;> simp [hs, h]
    · simp [hs]

/-- On a 200 response whose body parses cleanly, the dispatch helper returns
the parsed values. -/
theorem doHTTP_ok_of_parse (endpoint bodyJson : String) (resp : Response)
    (vals : List (String × String))
    (hstatus : resp.statusCode = 200) (hparse : parseQuery resp.body = (vals, none)) :
    doHTTP (DoResult.success resp) endpoint bodyJson
      = (Except.ok vals, [⟨host ++ endpoint, bodyJson⟩]) := by
  simp [doHTTP, hstatus, hparse]

/-! ### Theorems -/

/-- C1 (amended): the dispatch helper errors exactly when the status is not
200 or the 200 body fails to parse; non-200 errors carry the error header. -/
theorem doHTTP_error_iff_not_ok_or_parse_failure (endpoint bodyJson : String) (resp : Response) :
    (exceptIsError (doHTTP (DoResult.success resp) endpoint bodyJson).1 = true ↔
      resp.statusCode ≠ 200 ∨ (parseQuery resp.body).2.isSome = true) ∧
    (resp.statusCode ≠ 200 →
      (doHTTP (DoResult.success resp) endpoint bodyJson).1
        = Except.error ("API Error: " ++ resp.xErrorHeader)) ∧
    (resp.statusCode = 200 → (parseQuery resp.body).2 = none →
      (doHTTP (DoResult.success resp) endpoint bodyJson).1 = Except.ok (parseQuery resp.body).1) := by
  by_cases hs : resp.statusCode = 200
  · rcases h : parseQuery resp.body with ⟨vals, err⟩
    cases err <;> simp [doHTTP, hs, h, exceptIsError]
  · simp [doHTTP, hs, exceptIsError]

/-- C1 witness: at status 400 with error header content, the helper returns
the error built from that header. -/
theorem doHTTP_error_iff_witness :
    (doHTTP (DoResult.success ⟨400, "missing consumer key", ""⟩) endpointAdd "").1
      = Except.error ("API Error: " ++ "missing consumer key") :=
  (doHTTP_error_iff_not_ok_or_parse_failure endpointAdd "" ⟨400, "missing consumer key", ""⟩).2.1
    (by decide)

/-- C1 counterexample: a 201 status is in the 2xx range, yet the helper
returns an error rather than parsing the body. -/
theorem doHTTP_status_201_errors_despite_2xx :
    (200 ≤ 201 ∧ 201 < 300) ∧
    exceptIsError (doHTTP (DoResult.success ⟨201, "", "code=ABC"⟩) endpointRequestToken "").1
      = true :=
  ⟨by decide, rfl⟩

/-- C2 (amended): with an empty redirect URL the request is still
dispatched, and failure is decided only by the dispatch outcome and the
parsed code value. -/
theorem GetRequestToken_empty_redirect_dispatches (ck : String) (net : DoResult) :
    (GetRequestToken ⟨ck⟩ net "").2
      = [⟨host ++ endpointRequestToken, requestTokenRequestJSON ⟨ck, ""⟩⟩] ∧
    (exceptIsError (GetRequestToken ⟨ck⟩ net "").1 = true ↔
      (exceptIsError (doHTTP net endpointRequestToken (requestTokenRequestJSON ⟨ck, ""⟩)).1 = true ∨
        valuesGet (dispatchValues
          (doHTTP net endpointRequestToken (requestTokenRequestJSON ⟨ck, ""⟩)).1) "code" = "")) := by
  rcases h : doHTTP net endpointRequestToken (requestTokenRequestJSON ⟨ck, ""⟩) with ⟨r, log⟩
  have hlog : log = [⟨host ++ endpointRequestToken, requestTokenRequestJSON ⟨ck, ""⟩⟩] := by
    have hs := doHTTP_sends net endpointRequestToken (requestTokenRequestJSON ⟨ck, ""⟩)
    rw [h] at hs
    exact hs
  cases r with
  | error e => simp [GetRequestToken, h, hlog, exceptIsError, dispatchValues]
  | ok values =>
    by_cases hc : valuesGet values "code" = "" <;>
      simp [GetRequestToken, h, hlog, hc, exceptIsError, dispatchValues, beq_iff_eq]

/-- C2 counterexample: with an empty redirect URL but a 200 response whose
body carries a non-empty code, the call succeeds. -/
theorem GetRequestToken_empty_redirect_can_succeed :
    (GetRequestToken ⟨"key"⟩ (DoResult.success ⟨200, "", "code=ABC"⟩) "").1 = Except.ok "ABC" :=
  rfl

/-- C3 (amended): with non-empty URL and access token, Add succeeds on every
200 response whose body parses as URL-encoded form values. -/
theorem Add_ok_on_200_parseable_body (ck : String) (inp : AddInput) (resp : Response)
    (hurl : inp.URL ≠ "") (htok : inp.AccessToken ≠ "")
    (hstatus : resp.statusCode = 200) (hparse : (parseQuery resp.body).2 = none) :
    (Add ⟨ck⟩ (DoResult.success resp) inp).1 = Except.ok () := by
  rcases h : parseQuery resp.body with ⟨vals, err⟩
  rw [h] at hparse
  subst hparse
  have hdo := doHTTP_ok_of_parse endpointAdd (addRequestJSON (generateRequest inp ck)) resp vals
    hstatus h
  simp [Add, validate, hurl, htok, hdo]

/-- C3 witness: a concrete successful Add on a 200 response. -/
theorem Add_ok_on_200_parseable_body_witness :
    (Add ⟨"key"⟩ (DoResult.success ⟨200, "", ""⟩)
      ⟨"http://example.link", "", [], "token"⟩).1 = Except.ok () :=
  Add_ok_on_200_parseable_body "key" ⟨"http://example.link", "", [], "token"⟩ ⟨200, "", ""⟩
    (by decide) (by decide) rfl (by decide)

/-- C3 counterexample: a 200 response whose body is not valid URL-encoded
form data makes Add fail, so the body's content can cause failure. -/
theorem Add_status_200_with_unparseable_body_errors :
    exceptIsError (Add ⟨"key"⟩ (DoResult.success ⟨200, "", "%zz"⟩)
      ⟨"http://example.link", "", [], "token"⟩).1 = true :=
  rfl

/-- C4: the JSON serialization of an addRequest always emits all five keys,
title and tags included, whatever the field values are. -/
theorem addRequest_always_emits_title_and_tags (r : addRequest) :
    (addRequestFields r).map Prod.fst = ["url", "title", "tags", "access_token", "consumer_key"] := by
  simp [addRequestFields, encodeStringField, parseTag, splitSegs]

/-- C5: GetAuthorizationURL errors exactly on an empty argument and
otherwise substitutes both arguments verbatim into the fixed template. -/
theorem GetAuthorizationURL_spec :
    (∀ t r, t ≠ "" → r ≠ "" →
      GetAuthorizationURL t r = Except.ok
        ("https://getpocket.com/auth/authorize?request_token=" ++ t ++ "&redirect_uri=" ++ r)) ∧
    (∀ t r, exceptIsError (GetAuthorizationURL t r) = true ↔ (t = "" ∨ r = "")) ∧
    GetAuthorizationURL "qwe-rty-123" "http://localhost:80/"
      = Except.ok
        "https://getpocket.com/auth/authorize?request_token=qwe-rty-123&redirect_uri=http://localhost:80/" := by
  refine ⟨?_, ?_, rfl⟩
  · intro t r ht hr
    simp [GetAuthorizationURL, ht, hr]
  · intro t r
    by_cases ht : t = "" <;> by_cases hr : r = "" <;>
      simp [GetAuthorizationURL, ht, hr, exceptIsError]

/-- C5 witness: the template instance at two concrete non-empty strings. -/
theorem GetAuthorizationURL_spec_witness :
    GetAuthorizationURL "tok" "http://cb/"
      = Except.ok ("https://getpocket.com/auth/authorize?request_token=" ++ "tok"
          ++ "&redirect_uri=" ++ "http://cb/") :=
  GetAuthorizationURL_spec.1 "tok" "http://cb/" (by decide) (by decide)

/-- C6: Authorize with a non-empty token on a 200 response with a cleanly
parsed body returns the access-token and username values when the access
token is non-empty, and fails when it is empty or absent. -/
theorem Authorize_200_spec (ck tok : String) (resp : Response)
    (vals : List (String × String)) (htok : tok ≠ "")
    (hstatus : resp.statusCode = 200) (hparse : parseQuery resp.body = (vals, none)) :
    (valuesGet vals "access_token" ≠ "" →
      (Authorize ⟨ck⟩ (DoResult.success resp) tok).1
        = Except.ok ⟨valuesGet vals "access_token", valuesGet vals "username"⟩) ∧
    (valuesGet vals "access_token" = "" →
      (Authorize ⟨ck⟩ (DoResult.success resp) tok).1
        = Except.error "empty access token in API response") := by
  have hdo := doHTTP_ok_of_parse endpointAuthorize (authorizeRequestJSON ⟨ck, tok⟩) resp vals
    hstatus hparse
  constructor <;> intro hc <;>
    simp [Authorize, htok, hdo, hc, beq_iff_eq]

/-- C6 witness: the concrete exchange from the test suite. -/
theorem Authorize_200_spec_witness :
    (Authorize ⟨"key"⟩
        (DoResult.success ⟨200, "", "access_token=qwe-rty-123&username=testuser"⟩) "token").1
      = Except.ok ⟨"qwe-rty-123", "testuser"⟩ :=
  (Authorize_200_spec "key" "token" ⟨200, "", "access_token=qwe-rty-123&username=testuser"⟩
      [("access_token", "qwe-rty-123"), ("username", "testuser")]
      (by decide) rfl (by decide)).1 (by decide)

/-- C7: GetRequestToken on a 200 response with a cleanly parsed body returns
the code value when it is non-empty and fails when it is absent or empty. -/
theorem GetRequestToken_200_spec (ck ru : String) (resp : Response)
    (vals : List (String × String))
    (hstatus : resp.statusCode = 200) (hparse : parseQuery resp.body = (vals, none)) :
    (valuesGet vals "code" ≠ "" →
      (GetRequestToken ⟨ck⟩ (DoResult.success resp) ru).1 = Except.ok (valuesGet vals "code")) ∧
    (valuesGet vals "code" = "" →
      (GetRequestToken ⟨ck⟩ (DoResult.success resp) ru).1
        = Except.error "empty request token in API response") := by
  have hdo := doHTTP_ok_of_parse endpointRequestToken (requestTokenRequestJSON ⟨ck, ru⟩) resp vals
    hstatus hparse
  constructor <;> intro hc <;>
    simp [GetRequestToken, hdo, hc, beq_iff_eq]

/-- C7 witness: body code=ABC at status 200 yields ABC. -/
theorem GetRequestToken_200_spec_witness :
    (GetRequestToken ⟨"key"⟩ (DoResult.success ⟨200, "", "code=ABC"⟩) "http://localhost:80/").1
      = Except.ok "ABC" :=
  (GetRequestToken_200_spec "key" "http://localhost:80/" ⟨200, "", "code=ABC"⟩
      [("code", "ABC")] rfl (by decide)).1 (by decide)

/-- C8: the addRequest built from an AddInput carries the tags joined with
commas; the test-suite list joins to the expected string. -/
theorem generateRequest_tags_join :
    (∀ (i : AddInput) ck, (generateRequest i ck).Tags = String.intercalate "," i.Tags) ∧
    (generateRequest ⟨"http://example.link", "example", ["qwe", "rty", "123"], "token"⟩ "key").Tags
      = "qwe,rty,123" :=
  ⟨fun _ _ => rfl, rfl⟩

/-- C9: validation failures perform no dispatch: Authorize with an empty
token, and Add with an empty URL or empty access token, error with an empty
request log. -/
theorem validation_errors_no_dispatch :
    (∀ ck net, Authorize ⟨ck⟩ net "" = (Except.error "empty request token", [])) ∧
    (∀ ck net (i : AddInput), i.URL = "" ∨ i.AccessToken = "" →
      exceptIsError (Add ⟨ck⟩ net i).1 = true ∧ (Add ⟨ck⟩ net i).2 = []) := by
  constructor
  · intro ck net
    simp [Authorize]
  · intro ck net i h
    by_cases hu : i.URL = ""
    · simp [Add, validate, hu, exceptIsError]
    · rcases h with h | h
      · exact absurd h hu
      · simp [Add, validate, hu, h, exceptIsError]

/-- C9 witness: a concrete Add with empty URL errors with no dispatch. -/
theorem validation_errors_no_dispatch_witness :
    exceptIsError (Add ⟨"key"⟩ (DoResult.failure "down") ⟨"", "", [], "token"⟩).1 = true ∧
    (Add ⟨"key"⟩ (DoResult.failure "down") ⟨"", "", [], "token"⟩).2 = [] :=
  validation_errors_no_dispatch.2 "key" (DoResult.failure "down") ⟨"", "", [], "token"⟩
    (Or.inl rfl)

/-- C10: the single error message covers both empty arguments: whenever the
token or the redirect URL is empty, the error reads the same. -/
theorem GetAuthorizationURL_error_message_uniform (t r : String) (h : t = "" ∨ r = "") :
    GetAuthorizationURL t r = Except.error "empty request token" := by
  rcases h with h | h <;> simp [GetAuthorizationURL, h]

/-- C10 witness: a non-empty token with an empty redirect URL still yields
the empty-request-token message. -/
theorem GetAuthorizationURL_error_message_uniform_witness :
    GetAuthorizationURL "qwe-rty-123" "" = Except.error "empty request token" :=
  GetAuthorizationURL_error_message_uniform "qwe-rty-123" "" (Or.inr rfl)

end Pocket
